import Mathlib

/-!
Verification of the worker coordination subsystem of `revelryengine/utils`
(`src/lib/worker-helper.js`, with `src/lib/non-null.js` and `src/lib/lock.js`
as collaborators).

The source file contains successive revisions of the module; definitions below
follow the latest revision (`WorkerHelper`, `WorkerHelperPool` with
`options.shared`), and definitions suffixed `Legacy` follow the earlier
revision (`SharedWorkerHelper.createWorkerBlob`, the BroadcastChannel-based
fetch proxy handler) where a claim cites it.

Asynchronous behaviour is embedded by making the relevant events explicit
function arguments: a remote reply is an optional `(arrivalTime, Reply)` pair,
an abort-signal firing is an optional `(fireTime, reason)` pair, and a promise
that can settle at most once is a value of type `Option (Except e a)` computed
from the earliest settling event (first settle wins; later events cannot
change the value).
-/

namespace WH

/-- JavaScript values as far as the RPC protocol observes them: method results,
remote error values (propagated verbatim by `callMethod`), `DOMException`
cancellation errors, `TypeError`s, and generic `Error` objects. -/
inductive JSValue where
  | undefined
  | num (n : Int)
  | str (s : String)
  | error (message : String)
  | typeError (message : String)
  | abortError (reason : String)
deriving Repr, DecidableEq

/-- A reply message posted by the worker side on the ephemeral channel port:
`{ ok, result, error }`.  A success reply carries `result` (its `error` field
is `undefined`); a failure reply carries `error`. -/
structure Reply where
  ok : Bool
  result : JSValue
  error : JSValue
deriving Repr, DecidableEq

/-- The tail of `WorkerHelper.callMethod`:
`if (response.data?.ok) { return response.data.result } else { throw response.data.error }`. -/
def handleReply (response : Reply) : Except JSValue JSValue :=
  if response.ok then Except.ok response.result else Except.error response.error

deriving instance DecidableEq for Except

/-- Observable outcome of one `WorkerHelper.#asyncPostMessage` call:
whether and how the returned promise settled, whether the abort listener ran
`channel.port1.postMessage(signal.reason)` (the cancellation notice), and
whether each ephemeral `MessageChannel` port was closed. -/
structure ChannelCallResult where
  settled : Option (Except JSValue Reply)
  cancelNoticePosted : Bool
  port1Closed : Bool
  port2Closed : Bool
deriving Repr, DecidableEq

/-- `WorkerHelper.#asyncPostMessage(target, message, transfer, signal)`.

`sendThrows` models `target.postMessage` throwing synchronously; this happens
before the promise with the `.finally` port-closing handler is constructed, so
in that case the async function rejects with the thrown error and neither port
is closed.  Otherwise the promise settles with the earliest of the abort-signal
firing (reject with a `DOMException(reason, 'AbortError')`, after posting the
reason on `port1`) and the reply arriving (resolve with the message event);
`.finally` then closes both ports.  When the abort listener fires after the
reply has already settled the promise, it still posts the reason, but `port1`
is already closed and the rejection is a no-op on the settled promise. -/
def asyncPostMessage (sendThrows : Bool) (abort : Option (Nat × String))
    (reply : Option (Nat × Reply)) : ChannelCallResult :=
  if sendThrows then
    { settled := some (Except.error (JSValue.error "postMessage failed")),
      cancelNoticePosted := false, port1Closed := false, port2Closed := false }
  else
    match abort, reply with
    | none, none => ⟨none, false, false, false⟩
    | none, some (_, r) => ⟨some (Except.ok r), false, true, true⟩
    | some (_, reason), none =>
        ⟨some (Except.error (JSValue.abortError reason)), true, true, true⟩
    | some (ta, reason), some (tr, r) =>
        if ta < tr then
          ⟨some (Except.error (JSValue.abortError reason)), true, true, true⟩
        else
          ⟨some (Except.ok r), true, true, true⟩

/-- `NonNull(value, message)` from `src/lib/non-null.js`:
`if (value == null) throw new Error(message); return value`. -/
def NonNull {α : Type} (value : Option α) (message : String) : Except String α :=
  match value with
  | none => Except.error message
  | some v => Except.ok v

/-- The message passed to `NonNull` by the `state` getter. -/
def notInitializedMessage : String :=
  "WorkerHelper has not been initialized. Call init() before accessing the worker state."

/-- The frozen `WorkerHelperState` `{ worker, channel }` installed by `init`,
identified by ids for the created worker and channel. -/
structure HandleState where
  workerId : Nat
  channelId : Nat
deriving Repr, DecidableEq

/-- The coordinator's private fields: the memoized `#initPromise` (a promise
identity, or `none` before the first `init` call), the `#state` handle, a
count of workers created so far (each run of the `init` body creates exactly
one), and a fresh-id counter. -/
structure Helper where
  initPromise : Option Nat
  state : Option HandleState
  workersCreated : Nat
  nextId : Nat
deriving Repr, DecidableEq

def freshHelper : Helper := ⟨none, none, 0, 0⟩

/-- The synchronous part of `WorkerHelper.init()`:
`this.#initPromise ??= (async () => { ... })(); return this.#initPromise`.
If the promise is already memoized it is returned unchanged and the body does
not run again; otherwise a new promise is allocated and the body starts,
creating the one worker for this initialization. -/
def initCall (h : Helper) : Nat × Helper :=
  match h.initPromise with
  | some p => (p, h)
  | none =>
      (h.nextId,
       ⟨some h.nextId, h.state, h.workersCreated + 1, h.nextId + 1⟩)

/-- Completion of the `init` body: installs the frozen
`{ worker: await this.#createWorker(), channel: new MessageChannel() }`. -/
def initComplete (h : Helper) : Helper :=
  ⟨h.initPromise, some ⟨h.nextId, h.nextId + 1⟩, h.workersCreated, h.nextId + 2⟩

/-- `WorkerHelper.disconnect()`: posts a disconnect notice, closes both control
channel ports and clears `#state`; it aborts and replaces `#abortCtl` but does
not touch `#initPromise`. -/
def disconnect (h : Helper) : Helper :=
  ⟨h.initPromise, none, h.workersCreated, h.nextId⟩

/-- The `state` getter:
`NonNull(this.#state, 'WorkerHelper has not been initialized. ...')`. -/
def stateGet (h : Helper) : Except String HandleState :=
  NonNull h.state notInitializedMessage

/-- The `worker` getter: `return this.state.worker`. -/
def workerGet (h : Helper) : Except String Nat :=
  (stateGet h).map HandleState.workerId

/-- `WorkerHelper.callMethod({ method, args, transfer, signal })`: reading
`this.state.channel.port1` throws the not-initialized error when `#state` is
null; otherwise the call is `#asyncPostMessage` followed by `handleReply`,
and it is pending (`none`) exactly when the inner promise never settles. -/
def callMethodRun (h : Helper) (sendThrows : Bool) (abort : Option (Nat × String))
    (reply : Option (Nat × Reply)) : Option (Except JSValue JSValue) :=
  match stateGet h with
  | Except.error m => some (Except.error (JSValue.error m))
  | Except.ok _ =>
      match (asyncPostMessage sendThrows abort reply).settled with
      | none => none
      | some (Except.error e) => some (Except.error e)
      | some (Except.ok r) => some (handleReply r)

/-- `n` successive `init()` calls (all made before the initialization body
completes), returning the list of promise identities observed by the callers
and the final coordinator state. -/
def runInits : Nat → Helper → List Nat × Helper
  | 0, h => ([], h)
  | n + 1, h =>
      let r := initCall h
      let rec' := runInits n r.2
      (r.1 :: rec'.1, rec'.2)

/-- One `WorkerHelperPool` entry `{ tasks, worker }`; `id` identifies the
underlying `WorkerHelper` object (entries are distinct objects). -/
structure PoolEntry where
  id : Nat
  tasks : Nat
deriving Repr, DecidableEq

/-- The pool's sort comparator `(a, b) => a.tasks - b.tasks`: a sorts before b
when the difference is non-positive. -/
def taskLE (a b : PoolEntry) : Bool := decide (a.tasks ≤ b.tasks)

/-- Stable insertion of an entry into an already-sorted list: the inserted
entry goes before the first existing entry it compares less-or-equal to, so an
entry coming from earlier in the original list stays before later entries with
an equal task count. -/
def insertEntry (e : PoolEntry) : List PoolEntry → List PoolEntry
  | [] => [e]
  | x :: xs => if taskLE e x then e :: x :: xs else x :: insertEntry e xs

/-- `this.#workerPool.sort((a, b) => a.tasks - b.tasks)`: JavaScript
`Array.prototype.sort` is specified to be a stable ascending sort, so its
result is the unique stable ascending reordering, embedded here as a stable
insertion sort. -/
def jsSortPool : List PoolEntry → List PoolEntry
  | [] => []
  | e :: rest => insertEntry e (jsSortPool rest)

/-- The first entry of the list attaining the minimal task count (the entry a
stable ascending sort moves to the front). -/
def firstMin : List PoolEntry → Option PoolEntry
  | [] => none
  | e :: rest =>
      match firstMin rest with
      | none => some e
      | some m => if e.tasks ≤ m.tasks then some e else some m

/-- The `.finally(() => target.tasks--)` step: decrements the task counter of
the selected entry (identified by its object identity) when the delegated call
settles, whatever its outcome. -/
def poolSettle (selectedId : Nat) (pool : List PoolEntry) : List PoolEntry :=
  pool.map fun e => if e.id = selectedId then ⟨e.id, e.tasks - 1⟩ else e

/-- `WorkerHelperPool.callMethod`: sorts the pool in place, takes the first
entry, increments its counter, delegates the call (whose outcome is passed
through unchanged), and registers the decrement for settlement.  Returns the
delegated outcome, the selected entry (with its pre-increment count), the pool
as it stands while the call is in flight, and the pool after the call
settles; `none` models the crash on an empty pool (`target` undefined). -/
def poolCall (pool : List PoolEntry) (outcome : Except JSValue JSValue) :
    Option (Except JSValue JSValue × PoolEntry × List PoolEntry × List PoolEntry) :=
  match jsSortPool pool with
  | [] => none
  | t :: rest =>
      let during := PoolEntry.mk t.id (t.tasks + 1) :: rest
      some (outcome, t, during, poolSettle t.id during)

/-- The leader-election timeout: `setTimeout(() => reject('timeout'), 1000)`. -/
def electionTimeoutMs : Nat := 1000

/-- Outcome of one `createWorkerBlob`-style call: the blob URL or the rejection
reason, together with the time at which the promise settled. -/
structure ElectionOutcome where
  result : Except String String
  settleTime : Nat
deriving Repr, DecidableEq

/-- The contender's bounded wait: broadcast `null`, then race the first reply
on the `SharedWorker:` channel against the 1000 ms timeout.  `reply` is the
arrival time and payload of the first reply broadcast, if any. -/
def contenderWait (reply : Option (Nat × String)) : ElectionOutcome :=
  match reply with
  | some (t, blob) =>
      if t < electionTimeoutMs then ⟨Except.ok blob, t⟩
      else ⟨Except.error "timeout", electionTimeoutMs⟩
  | none => ⟨Except.error "timeout", electionTimeoutMs⟩

/-- `WorkerHelper.#createSharedWorkerBlobURL` (latest revision).  With the lock
available the caller becomes leader and resolves with its own generated blob;
otherwise the contender wait runs and, on timeout, the inner rejection
propagates through `requestLock(...).catch(reject)` unchanged. -/
def createSharedWorkerBlobURL (generated : String) (lockAvailable : Bool)
    (reply : Option (Nat × String)) : ElectionOutcome :=
  if lockAvailable then ⟨Except.ok generated, 0⟩
  else contenderWait reply

/-- `SharedWorkerHelper.createWorkerBlob` (earlier revision): same election,
but the contender's `.catch((e) => reject('Failed to fetch blob: ' + e))`
wraps the rejection reason. -/
def createWorkerBlobLegacy (generated : String) (lockAvailable : Bool)
    (reply : Option (Nat × String)) : ElectionOutcome :=
  if lockAvailable then ⟨Except.ok generated, 0⟩
  else
    match contenderWait reply with
    | ⟨Except.ok blob, t⟩ => ⟨Except.ok blob, t⟩
    | ⟨Except.error e, t⟩ => ⟨Except.error ("Failed to fetch blob: " ++ e), t⟩

/-- Result of the real network call performed by the host for a proxied
request, as far as the proxy protocol observes it. -/
structure FetchResult where
  status : Nat
  statusText : String
deriving Repr, DecidableEq

/-- What one proxied request did on the host side: the `{ id, status }` of the
response message posted back to the worker (if any), and an error escaping the
host-side handler (if any). -/
structure ProxyReport where
  posted : Option (Nat × Nat)
  hostError : Option String
deriving Repr, DecidableEq

/-- The host-side fetch proxy handler of the earlier revision
(`requestChannel.onmessage` installed by `init`): on fetch success it posts
`{ type: 'file', id, response: { status, ... } }`; on fetch failure the
`.catch` posts `{ type: 'file', id, response: { status: 0, statusText: e } }`
and nothing is thrown host-side. -/
def handleProxyRequestLegacy (id : Nat) (fetchOutcome : Except String FetchResult) :
    ProxyReport :=
  match fetchOutcome with
  | Except.ok res => ⟨some (id, res.status), none⟩
  | Except.error _ => ⟨some (id, 0), none⟩

/-- The host-side fetch proxy handler of the latest revision
(`this.state.channel.port1.onmessage` installed by `init`):
`const res = await fetch(uri, options)` has no surrounding try/catch, so a
fetch failure rejects the async handler and no response message is posted. -/
def handleProxyRequestCurrent (id : Nat) (fetchOutcome : Except String FetchResult) :
    ProxyReport :=
  match fetchOutcome with
  | Except.ok res => ⟨some (id, res.status), none⟩
  | Except.error e => ⟨none, some e⟩

/-- A module export as the worker-side dispatcher observes it: calling it
either returns a `{ result, transfer }` record or throws. -/
inductive MethodBehavior where
  | returns (result : JSValue)
  | throws (e : JSValue)
deriving Repr, DecidableEq

/-- The `TypeError` raised by
`const { result, transfer } = await module[method]?.(...)` when
`module[method]` is undefined: the optional call yields `undefined` and
destructuring `undefined` throws. -/
def missingMethodError : JSValue :=
  JSValue.typeError "Cannot destructure property of undefined"

/-- The worker-side `case 'method'` dispatcher of `#getModulePreamble`: looks
up the export, invokes it, checks the abort flag, and posts exactly one reply
on the ephemeral port — `{ ok: true, result }` on success, `{ ok: false,
error }` when the invocation (or the destructuring of a missing export)
throws, or when the abort flag was set. -/
def dispatchMethod (module : String → Option MethodBehavior) (method : String)
    (aborted : Bool) (abortReason : String) : Reply :=
  match module method with
  | none => ⟨false, JSValue.undefined, missingMethodError⟩
  | some (MethodBehavior.throws e) => ⟨false, JSValue.undefined, e⟩
  | some (MethodBehavior.returns r) =>
      if aborted then ⟨false, JSValue.undefined, JSValue.abortError abortReason⟩
      else ⟨true, r, JSValue.undefined⟩

/-! Helper lemmas. -/

theorem firstMin_isSome (x : PoolEntry) (xs : List PoolEntry) :
    (firstMin (x :: xs)).isSome = true := by
  dsimp [firstMin]
  cases firstMin xs with
  | none => rfl
  | some m => by_cases hc : x.tasks ≤ m.tasks <;> simp [hc]

theorem firstMin_le : ∀ (l : List PoolEntry) (m : PoolEntry),
    firstMin l = some m → ∀ e ∈ l, m.tasks ≤ e.tasks
  | [], m, hm => by simp [firstMin] at hm
  | x :: xs, m, hm => by
    intro e he
    dsimp [firstMin] at hm
    rcases hx : firstMin xs with _ | m' <;> rw [hx] at hm <;> dsimp only at hm
    · have hxs : xs = [] := by
        cases xs with
        | nil => rfl
        | cons y ys => simpa [hx] using firstMin_isSome y ys
      simp only [Option.some.injEq] at hm
      subst hm
      subst hxs
      rcases List.mem_singleton.mp he with rfl
      exact Nat.le_refl _
    · have hmin := firstMin_le xs m' hx
      by_cases hcmp : x.tasks ≤ m'.tasks
      · rw [if_pos hcmp] at hm
        simp only [Option.some.injEq] at hm
        subst hm
        rcases List.mem_cons.mp he with rfl | hexs
        · exact Nat.le_refl _
        · exact Nat.le_trans hcmp (hmin e hexs)
      · rw [if_neg hcmp] at hm
        simp only [Option.some.injEq] at hm
        subst hm
        rcases List.mem_cons.mp he with rfl | hexs
        · omega
        · exact hmin e hexs

theorem head_jsSortPool : ∀ l : List PoolEntry, (jsSortPool l).head? = firstMin l
  | [] => rfl
  | e :: rest => by
    have ih := head_jsSortPool rest
    dsimp [jsSortPool, firstMin]
    rw [← ih]
    cases hs : jsSortPool rest with
    | nil => rfl
    | cons m s' =>
      dsimp [insertEntry, taskLE]
      by_cases hc : e.tasks ≤ m.tasks
      · simp [hc]
      · simp [hc]

theorem insertEntry_perm (e : PoolEntry) :
    ∀ l, List.Perm (insertEntry e l) (e :: l)
  | [] => List.Perm.refl _
  | x :: xs => by
    dsimp [insertEntry]
    cases hc : taskLE e x
    · simpa [hc] using ((insertEntry_perm e xs).cons x).trans (List.Perm.swap e x xs)
    · simp [hc]

theorem jsSortPool_perm : ∀ l, List.Perm (jsSortPool l) l
  | [] => List.Perm.refl _
  | e :: rest => (insertEntry_perm e (jsSortPool rest)).trans ((jsSortPool_perm rest).cons e)

theorem poolSettle_unchanged (i : Nat) :
    ∀ l : List PoolEntry, (∀ x ∈ l, x.id ≠ i) → poolSettle i l = l
  | [], _ => rfl
  | x :: xs, h => by
    have hx : x.id ≠ i := h x (List.mem_cons_self x xs)
    have hxs := poolSettle_unchanged i xs fun y hy => h y (List.mem_cons_of_mem x hy)
    simp only [poolSettle, List.map_cons, if_neg hx]
    simpa [poolSettle] using hxs

theorem initCall_memoized (h : Helper) (p : Nat) (hp : h.initPromise = some p) :
    initCall h = (p, h) := by
  simp [initCall, hp]

theorem runInits_memoized (h : Helper) (p : Nat) (hp : h.initPromise = some p) :
    ∀ n, runInits n h = (List.replicate n p, h)
  | 0 => by simp [runInits]
  | n + 1 => by
    simp [runInits, initCall_memoized h p hp, runInits_memoized h p hp n, List.replicate]

/-! The claim theorems. -/

/-- C1: every sequence of `init()` calls made before the first initialization
completes returns the same memoized in-flight promise (promise id `0` for all
callers, hence the identical resulting worker/channel state), and the
initialization body runs once, creating exactly one underlying worker. -/
theorem init_memoized_single_worker (n : Nat) (hn : 1 ≤ n) :
    (runInits n freshHelper).1 = List.replicate n 0 ∧
    (runInits n freshHelper).2.workersCreated = 1 ∧
    (runInits n freshHelper).2 = Helper.mk (some 0) none 1 1 := by
  obtain ⟨m, rfl⟩ : ∃ m, n = m + 1 := ⟨n - 1, by omega⟩
  have h1 : initCall freshHelper = (0, Helper.mk (some 0) none 1 1) := rfl
  have h2 := runInits_memoized (Helper.mk (some 0) none 1 1) 0 rfl m
  simp [runInits, h1, h2, List.replicate]

theorem init_memoized_single_worker_witness :
    (runInits 3 freshHelper).1 = List.replicate 3 0 ∧
    (runInits 3 freshHelper).2.workersCreated = 1 ∧
    (runInits 3 freshHelper).2 = Helper.mk (some 0) none 1 1 :=
  init_memoized_single_worker 3 (by decide)

/-- C2: after a successful `init` (the state handle is installed), a reply
`{ ok: true, result }` makes `callMethod` resolve with exactly that result,
and a reply `{ ok: false, error }` makes it reject with that error value
unchanged, whatever the error value is. -/
theorem callMethod_reply_propagation (h : Helper) (hs : HandleState)
    (hinit : h.state = some hs) (t : Nat) (v e : JSValue) :
    callMethodRun h false none (some (t, Reply.mk true v e)) =
      some (Except.ok v) ∧
    callMethodRun h false none (some (t, Reply.mk false v e)) =
      some (Except.error e) := by
  simp [callMethodRun, stateGet, NonNull, hinit, asyncPostMessage, handleReply]

theorem callMethod_reply_propagation_witness :
    callMethodRun (initComplete (initCall freshHelper).2) false none
        (some (0, Reply.mk true (JSValue.str "hi") (JSValue.typeError "bad"))) =
      some (Except.ok (JSValue.str "hi")) ∧
    callMethodRun (initComplete (initCall freshHelper).2) false none
        (some (0, Reply.mk false (JSValue.str "hi") (JSValue.typeError "bad"))) =
      some (Except.error (JSValue.typeError "bad")) :=
  callMethod_reply_propagation (initComplete (initCall freshHelper).2) ⟨1, 2⟩ rfl 0
    (JSValue.str "hi") (JSValue.typeError "bad")

/-- C3: when the cancellation signal fires strictly before the remote reply
arrives, the abort listener posts the cancellation notice on the ephemeral
channel and the call rejects with the `AbortError` cancellation error; the
outcome does not mention the reply at all (it is universally quantified), so
the later reply is never observed and the promise stays rejected. -/
theorem callMethod_cancellation_wins (ta tr : Nat) (reason : String) (r : Reply)
    (hlt : ta < tr) :
    asyncPostMessage false (some (ta, reason)) (some (tr, r)) =
      ⟨some (Except.error (JSValue.abortError reason)), true, true, true⟩ ∧
    ∀ (h : Helper) (hs : HandleState), h.state = some hs →
      callMethodRun h false (some (ta, reason)) (some (tr, r)) =
        some (Except.error (JSValue.abortError reason)) := by
  constructor
  · simp [asyncPostMessage, hlt]
  · intro h hs hinit
    simp [callMethodRun, stateGet, NonNull, hinit, asyncPostMessage, hlt]

theorem callMethod_cancellation_wins_witness :
    asyncPostMessage false (some (0, "stop"))
        (some (1, Reply.mk true (JSValue.str "late") JSValue.undefined)) =
      ⟨some (Except.error (JSValue.abortError "stop")), true, true, true⟩ ∧
    callMethodRun (initComplete (initCall freshHelper).2) false (some (0, "stop"))
        (some (1, Reply.mk true (JSValue.str "late") JSValue.undefined)) =
      some (Except.error (JSValue.abortError "stop")) :=
  ⟨(callMethod_cancellation_wins 0 1 "stop"
      (Reply.mk true (JSValue.str "late") JSValue.undefined) (by decide)).1,
   (callMethod_cancellation_wins 0 1 "stop"
      (Reply.mk true (JSValue.str "late") JSValue.undefined) (by decide)).2
     (initComplete (initCall freshHelper).2) ⟨1, 2⟩ rfl⟩

/-- C4: on a pool with distinct entries, `callMethod` selects the first entry
(in the pool's current ordering) attaining the minimal task count, increments
its counter before dispatch, passes the delegated outcome through unchanged
(success or rejection alike), and the settle decrement restores the counter,
leaving the pool a permutation of the original. -/
theorem pool_dispatch_least_busy (pool : List PoolEntry)
    (outcome : Except JSValue JSValue)
    (hnd : (pool.map PoolEntry.id).Nodup) (hne : pool ≠ []) :
    ∃ t rest,
      jsSortPool pool = t :: rest ∧
      firstMin pool = some t ∧
      (∀ e ∈ pool, t.tasks ≤ e.tasks) ∧
      poolCall pool outcome =
        some (outcome, t, PoolEntry.mk t.id (t.tasks + 1) :: rest, t :: rest) ∧
      List.Perm (t :: rest) pool := by
  rcases hs : jsSortPool pool with _ | ⟨t, rest⟩
  · have hp := jsSortPool_perm pool
    rw [hs] at hp
    exact absurd hp.symm.eq_nil hne
  · have hperm : List.Perm (t :: rest) pool := by
      have hp := jsSortPool_perm pool
      rw [hs] at hp
      exact hp
    have hfm : firstMin pool = some t := by
      have hh := head_jsSortPool pool
      rw [hs] at hh
      exact hh.symm
    have hids : ((t :: rest).map PoolEntry.id).Nodup :=
      ((hperm.map PoolEntry.id).nodup_iff).mpr hnd
    have hrest : ∀ x ∈ rest, x.id ≠ t.id := by
      intro x hx hxe
      exact (List.nodup_cons.mp hids).1 (hxe ▸ List.mem_map_of_mem PoolEntry.id hx)
    have hsettle :
        poolSettle t.id (PoolEntry.mk t.id (t.tasks + 1) :: rest) = t :: rest := by
      have hr := poolSettle_unchanged t.id rest hrest
      simp only [poolSettle, List.map_cons] at hr ⊢
      rw [hr]
      simp
    refine ⟨t, rest, rfl, hfm, firstMin_le pool t hfm, ?_, hperm⟩
    simp only [poolCall, hs, hsettle]

theorem pool_dispatch_least_busy_witness :
    ∃ t rest,
      jsSortPool [⟨0, 2⟩, ⟨1, 0⟩, ⟨2, 1⟩] = t :: rest ∧
      firstMin [⟨0, 2⟩, ⟨1, 0⟩, ⟨2, 1⟩] = some t ∧
      (∀ e ∈ [PoolEntry.mk 0 2, PoolEntry.mk 1 0, PoolEntry.mk 2 1], t.tasks ≤ e.tasks) ∧
      poolCall [⟨0, 2⟩, ⟨1, 0⟩, ⟨2, 1⟩] (Except.error (JSValue.error "failure")) =
        some (Except.error (JSValue.error "failure"), t,
          PoolEntry.mk t.id (t.tasks + 1) :: rest, t :: rest) ∧
      List.Perm (t :: rest) [⟨0, 2⟩, ⟨1, 0⟩, ⟨2, 1⟩] :=
  pool_dispatch_least_busy [⟨0, 2⟩, ⟨1, 0⟩, ⟨2, 1⟩]
    (Except.error (JSValue.error "failure")) (by decide) (by decide)

/-- C5: a contender (the non-blocking lock acquisition returned no lock) that
receives no reply broadcast within the 1000 ms window rejects exactly at the
timeout (`settleTime = electionTimeoutMs`, not before) with the timeout
reason; in the earlier revision the reason is wrapped into the message
`Failed to fetch blob: timeout`, in the latest revision the raw `timeout`
reason propagates through `requestLock(...).catch(reject)`.  The rejection is
terminal: no retry is modelled because none exists in the source. -/
theorem election_contender_timeout (generated : String)
    (reply : Option (Nat × String))
    (hlate : ∀ t blob, reply = some (t, blob) → electionTimeoutMs ≤ t) :
    createSharedWorkerBlobURL generated false reply =
      ⟨Except.error "timeout", electionTimeoutMs⟩ ∧
    createWorkerBlobLegacy generated false reply =
      ⟨Except.error "Failed to fetch blob: timeout", electionTimeoutMs⟩ := by
  have hw : contenderWait reply = ⟨Except.error "timeout", electionTimeoutMs⟩ := by
    cases reply with
    | none => rfl
    | some p =>
      obtain ⟨t, blob⟩ := p
      have ht := hlate t blob rfl
      simp [contenderWait, Nat.not_lt.mpr ht]
  constructor
  · simp [createSharedWorkerBlobURL, hw]
  · simp [createWorkerBlobLegacy, hw]

theorem election_contender_timeout_witness :
    createSharedWorkerBlobURL "blob:gen" false none =
      ⟨Except.error "timeout", electionTimeoutMs⟩ ∧
    createWorkerBlobLegacy "blob:gen" false none =
      ⟨Except.error "Failed to fetch blob: timeout", electionTimeoutMs⟩ :=
  election_contender_timeout "blob:gen" none (fun _ _ h => nomatch h)

/-- C6: what the code actually does after `disconnect`.  A completed `init`
followed by `disconnect` leaves `#initPromise` memoized, so the next `init()`
returns the stale promise id `0`, runs no initialization body (the worker
count stays at 1), installs no new handle (`#state` stays `none`), and the
state accessor keeps failing — no fresh initialization is started and no
brand-new handle is created, contradicting the claim. -/
theorem disconnect_then_init_returns_stale_promise :
    (initCall (disconnect (initComplete (initCall freshHelper).2))).1 =
      (initCall freshHelper).1 ∧
    (initCall (disconnect (initComplete (initCall freshHelper).2))).2.initPromise =
      some 0 ∧
    (initCall (disconnect (initComplete (initCall freshHelper).2))).2.state = none ∧
    (initCall (disconnect (initComplete (initCall freshHelper).2))).2.workersCreated = 1 ∧
    stateGet (initCall (disconnect (initComplete (initCall freshHelper).2))).2 =
      Except.error notInitializedMessage := by
  refine ⟨rfl, rfl, rfl, rfl, rfl⟩

/-- C7: while `#state` is `null` (before the `init` body completes, or after
`disconnect`), the `state` and `worker` accessors and `callMethod` all fail
with the descriptive not-initialized error instead of returning or operating
on a null context, whatever the transport would have done. -/
theorem uninitialized_access_fails_fast (h : Helper) (hu : h.state = none)
    (sendFails : Bool) (abort : Option (Nat × String)) (reply : Option (Nat × Reply)) :
    stateGet h = Except.error notInitializedMessage ∧
    workerGet h = Except.error notInitializedMessage ∧
    callMethodRun h sendFails abort reply =
      some (Except.error (JSValue.error notInitializedMessage)) := by
  refine ⟨?_, ?_, ?_⟩ <;>
    simp [stateGet, workerGet, NonNull, hu, callMethodRun, Except.map]

theorem uninitialized_access_fails_fast_witness :
    stateGet freshHelper = Except.error notInitializedMessage ∧
    workerGet freshHelper = Except.error notInitializedMessage ∧
    callMethodRun freshHelper false none
        (some (0, Reply.mk true (JSValue.str "hi") JSValue.undefined)) =
      some (Except.error (JSValue.error notInitializedMessage)) :=
  uninitialized_access_fails_fast freshHelper rfl false none
    (some (0, Reply.mk true (JSValue.str "hi") JSValue.undefined))

/-- C8: how each revision's host-side proxy handler reports a failed fetch.
The earlier revision catches the failure and posts a zero-status response
without throwing host-side, for every failure; the latest revision has no
catch, so the failure escapes the handler and no response message is posted
(the claim holds of the earlier handler and fails on the latest one). -/
theorem fetch_proxy_failure_reporting (id : Nat) (e : String) (res : FetchResult) :
    handleProxyRequestLegacy id (Except.error e) =
      ProxyReport.mk (some (id, 0)) none ∧
    handleProxyRequestCurrent id (Except.error e) =
      ProxyReport.mk none (some e) ∧
    handleProxyRequestCurrent id (Except.ok res) =
      ProxyReport.mk (some (id, res.status)) none :=
  ⟨rfl, rfl, rfl⟩

/-- C9, counterexample: when the initial `target.postMessage` throws, the call
settles (the async function rejects) on an exit path where neither ephemeral
port has been closed — the ports are only closed by the `.finally` of a
promise that is never constructed on this path. -/
theorem ephemeral_ports_leak_on_send_failure :
    (asyncPostMessage true none none).settled =
      some (Except.error (JSValue.error "postMessage failed")) ∧
    (asyncPostMessage true none none).port1Closed = false ∧
    (asyncPostMessage true none none).port2Closed = false :=
  ⟨rfl, rfl, rfl⟩

/-- C9, amended: whenever the initial send succeeds and the call settles —
by reply (success or remote error alike) or by cancellation — both ephemeral
channel endpoints are closed. -/
theorem ephemeral_ports_closed_after_successful_send
    (abort : Option (Nat × String)) (reply : Option (Nat × Reply))
    (hsettled : (asyncPostMessage false abort reply).settled.isSome = true) :
    (asyncPostMessage false abort reply).port1Closed = true ∧
    (asyncPostMessage false abort reply).port2Closed = true := by
  cases abort with
  | none =>
    cases reply with
    | none => simp [asyncPostMessage] at hsettled
    | some p =>
      obtain ⟨tr, r⟩ := p
      simp [asyncPostMessage]
  | some a =>
    obtain ⟨ta, reason⟩ := a
    cases reply with
    | none => simp [asyncPostMessage]
    | some p =>
      obtain ⟨tr, r⟩ := p
      by_cases hc : ta < tr <;> simp [asyncPostMessage, hc]

theorem ephemeral_ports_closed_after_successful_send_witness :
    (asyncPostMessage false none
        (some (0, Reply.mk true (JSValue.str "ok") JSValue.undefined))).settled.isSome
      = true ∧
    (asyncPostMessage false none
        (some (0, Reply.mk true (JSValue.str "ok") JSValue.undefined))).port1Closed
      = true ∧
    (asyncPostMessage false none
        (some (0, Reply.mk true (JSValue.str "ok") JSValue.undefined))).port2Closed
      = true :=
  ⟨rfl,
   (ephemeral_ports_closed_after_successful_send none
      (some (0, Reply.mk true (JSValue.str "ok") JSValue.undefined)) rfl).1,
   (ephemeral_ports_closed_after_successful_send none
      (some (0, Reply.mk true (JSValue.str "ok") JSValue.undefined)) rfl).2⟩

/-- C10: when the worker's loaded module has no export with the requested
name, the dispatcher's `module[method]?.(...)` yields `undefined`, the
destructuring of `undefined` throws a `TypeError` that the surrounding
try/catch turns into a posted `{ ok: false, error }` reply, and `callMethod`
therefore rejects with that error — it neither resolves with a value nor
hangs (a reply is always posted). -/
theorem missing_method_rejects (module : String → Option MethodBehavior)
    (method : String) (aborted : Bool) (abortReason : String)
    (hmissing : module method = none) :
    dispatchMethod module method aborted abortReason =
      Reply.mk false JSValue.undefined missingMethodError ∧
    handleReply (dispatchMethod module method aborted abortReason) =
      Except.error missingMethodError := by
  simp [dispatchMethod, hmissing, handleReply]

theorem missing_method_rejects_witness :
    dispatchMethod (fun _ => none) "echo" false "" =
      Reply.mk false JSValue.undefined missingMethodError ∧
    handleReply (dispatchMethod (fun _ => none) "echo" false "") =
      Except.error missingMethodError :=
  missing_method_rejects (fun _ => none) "echo" false "" rfl

end WH
